import Mathlib

/-!
Verification development for the lumios rendering engine core
(graphics configuration, Vulkan/DirectX12 backend frame lifecycle,
physical-device selection, and the graphics frontend render step).

The C++ sources are shallowly embedded: each C++ member function becomes a
Lean function on an explicit state record; native-API calls whose outcomes
are environment-determined (image acquisition, queue submit, presentation,
command-buffer begin/end) are passed in as oracle arguments; `uint32_t`
arithmetic is modelled on `Nat` with explicit reduction modulo 2^32 where
the source can overflow.
-/

namespace Lumios

/-- Bit width constant: `uint32_t` arithmetic wraps modulo this. -/
def U32 : Nat := 4294967296

/-- Addition on `uint32_t` values (`score += x`, `m_CurrentFrame + 1`, ...). -/
def u32add (a b : Nat) : Nat := (a + b) % U32

/-- Result kinds returned by backend operations (graphics_backend.h). -/
inductive BackendResult
  | SUCCESS
  | FAILED_INITIALIZATION
  | FAILED_DEVICE_CREATION
  | FAILED_SWAPCHAIN_CREATION
  | FAILED_COMMAND_BUFFER_CREATION
  | FAILED_SYNCHRONIZATION_CREATION
  | DEVICE_LOST
  | OUT_OF_MEMORY
  | SURFACE_LOST
  | UNKNOWN_ERROR
deriving DecidableEq, Repr

/-- Requested graphics API (graphics_config.h). -/
inductive GraphicsAPI
  | VULKAN
  | DIRECTX12
  | AUTO_SELECT
deriving DecidableEq, Repr

/-- Presentation mode (graphics_config.h). -/
inductive PresentMode
  | IMMEDIATE
  | FIFO
  | FIFO_RELAXED
  | MAILBOX
deriving DecidableEq, Repr

/-- MSAA sample count (graphics_config.h). -/
inductive MSAASamples
  | NONE
  | X2
  | X4
  | X8
  | X16
deriving DecidableEq, Repr

/-- Window configuration group with its C++ default member values. -/
structure WindowConfig where
  width : Nat := 1280
  height : Nat := 720
  title : String := "Lumios Engine"
  fullscreen : Bool := false
  resizable : Bool := true
  decorated : Bool := true
  maximized : Bool := false
  vsync : Bool := true
deriving DecidableEq, Repr

/-- Render configuration group with its C++ default member values. -/
structure RenderConfig where
  preferred_api : GraphicsAPI := .AUTO_SELECT
  present_mode : PresentMode := .FIFO
  msaa_samples : MSAASamples := .NONE
  enable_validation : Bool := true
  enable_debug_markers : Bool := true
  max_frames_in_flight : Nat := 2
  enable_anisotropic_filtering : Bool := true
deriving DecidableEq, Repr

/-- Performance configuration group with its C++ default member values. -/
structure PerformanceConfig where
  enable_gpu_timing : Bool := false
  enable_cpu_timing : Bool := false
  target_fps : Nat := 60
  adaptive_quality : Bool := false
deriving DecidableEq, Repr

/-- GraphicsConfig: the three embedded configuration groups. -/
structure GraphicsConfig where
  window : WindowConfig := {}
  render : RenderConfig := {}
  performance : PerformanceConfig := {}
deriving DecidableEq, Repr

namespace GraphicsConfig

/-- Embeds `GraphicsConfig::SetWindowSize`: clamps both dimensions up to 1
(`simple_max(1u, width)`). -/
def SetWindowSize (c : GraphicsConfig) (width height : Nat) : GraphicsConfig :=
  { c with window.width := max 1 width, window.height := max 1 height }

/-- Embeds `GraphicsConfig::SetWindowTitle`: stores the title, substituting the
default when the given string is empty. -/
def SetWindowTitle (c : GraphicsConfig) (title : String) : GraphicsConfig :=
  { c with window.title := if title.isEmpty then "Lumios Engine" else title }

/-- Embeds `GraphicsConfig::SetVSync`: stores the flag and forces the present mode
to FIFO (vsync on) or IMMEDIATE (vsync off). -/
def SetVSync (c : GraphicsConfig) (vsync : Bool) : GraphicsConfig :=
  { c with window.vsync := vsync,
           render.present_mode := if vsync then .FIFO else .IMMEDIATE }

/-- Embeds `GraphicsConfig::SetPresentMode`: stores the mode and updates the vsync
flag to whether the mode is FIFO or FIFO_RELAXED. -/
def SetPresentMode (c : GraphicsConfig) (mode : PresentMode) : GraphicsConfig :=
  { c with render.present_mode := mode,
           window.vsync := (mode = .FIFO || mode = .FIFO_RELAXED : Bool) }

/-- Embeds `GraphicsConfig::SetMaxFramesInFlight`: clamps to [1,8]
(`simple_max(1u, simple_min(frames, 8u))`). -/
def SetMaxFramesInFlight (c : GraphicsConfig) (frames : Nat) : GraphicsConfig :=
  { c with render.max_frames_in_flight := max 1 (min frames 8) }

/-- Embeds `GraphicsConfig::SetTargetFPS`: clamps to [30,300]
(`simple_max(30u, simple_min(fps, 300u))`). -/
def SetTargetFPS (c : GraphicsConfig) (fps : Nat) : GraphicsConfig :=
  { c with performance.target_fps := max 30 (min fps 300) }

/-- Embeds `GraphicsConfig::IsValid`: width > 0, height > 0, title non-empty,
max_frames_in_flight > 0, target_fps > 0 (graphics_config.cpp). -/
def IsValid (c : GraphicsConfig) : Bool :=
  decide (c.window.width > 0) && decide (c.window.height > 0) &&
  !c.window.title.isEmpty &&
  decide (c.render.max_frames_in_flight > 0) &&
  decide (c.performance.target_fps > 0)

end GraphicsConfig

/-- Modelled from the spec: the configuration invariants of spec §3
("dimensions ≥ 1, title non-empty, max-in-flight-frames ∈ [1,8], target
FPS ∈ [30,300]"), used to compare `IsValid` against the spec's words. -/
def specConfigInvariants (c : GraphicsConfig) : Prop :=
  1 ≤ c.window.width ∧ 1 ≤ c.window.height ∧ c.window.title ≠ "" ∧
  1 ≤ c.render.max_frames_in_flight ∧ c.render.max_frames_in_flight ≤ 8 ∧
  30 ≤ c.performance.target_fps ∧ c.performance.target_fps ≤ 300

instance (c : GraphicsConfig) : Decidable (specConfigInvariants c) := by
  unfold specConfigInvariants
  infer_instance

/-- Whether the vsync flag agrees with the present mode (the flag is set
exactly for the vsync-style modes FIFO and FIFO_RELAXED). -/
def vsyncAgrees (c : GraphicsConfig) : Prop :=
  c.window.vsync = (c.render.present_mode = .FIFO ||
                    c.render.present_mode = .FIFO_RELAXED : Bool)

/-- A configuration with max_frames_in_flight pushed to 9 through the
non-const `GetRenderConfig()` accessor (all other fields default). -/
def configWithNineFrames : GraphicsConfig :=
  { render := { max_frames_in_flight := 9 } }

/-! Physical-device selection (vulkan_backend.cpp `PickPhysicalDevice`,
`FindQueueFamilies`, `CheckDeviceExtensionSupport`,
`QuerySwapchainSupport`). A `PhysicalDevice` bundles everything the
selection code queries from the native API about one enumerated device. -/

/-- Queue family indices found for a device (vulkan_backend.h). -/
structure QueueFamilyIndices where
  graphics_family : Option Nat := none
  present_family : Option Nat := none
  compute_family : Option Nat := none
  transfer_family : Option Nat := none
deriving DecidableEq, Repr

/-- Embeds `QueueFamilyIndices::IsComplete`: graphics and present families were
both found. -/
def QueueFamilyIndices.IsComplete (q : QueueFamilyIndices) : Bool :=
  q.graphics_family.isSome && q.present_family.isSome

/-- One VkQueueFamilyProperties entry, together with the result of the
per-family `vkGetPhysicalDeviceSurfaceSupportKHR` query. -/
structure QueueFamilyProps where
  graphicsBit : Bool
  computeBit : Bool
  transferBit : Bool
  presentSupport : Bool
deriving DecidableEq, Repr

/-- VkPhysicalDeviceType values distinguished by the scoring code. -/
inductive VkPhysicalDeviceType
  | DISCRETE_GPU
  | INTEGRATED_GPU
  | VIRTUAL_GPU
  | CPU
  | OTHER
deriving DecidableEq, Repr

/-- Everything `PickPhysicalDevice` queries about one enumerated device:
properties, features, queue families (with surface support), advertised
device extensions, and the swapchain-support query results. -/
structure PhysicalDevice where
  deviceType : VkPhysicalDeviceType
  maxImageDimension2D : Nat
  geometryShader : Bool
  samplerAnisotropy : Bool
  queueFamilies : List QueueFamilyProps
  availableExtensions : List String
  formats : List Nat
  present_modes : List Nat
deriving DecidableEq, Repr

/-- Required device extensions (`deviceExtensions` in
vulkan_backend.cpp). -/
def deviceExtensions : List String := ["VK_KHR_swapchain"]

/-- Loop of `FindQueueFamilies`: walk the families in enumeration order,
recording the index of each capability, stopping early once complete. -/
def findQueueFamiliesAux :
    List QueueFamilyProps → Nat → QueueFamilyIndices → QueueFamilyIndices
  | [], _, ind => ind
  | qf :: rest, i, ind =>
    let ind := if qf.graphicsBit then
      { ind with graphics_family := some i } else ind
    let ind := if qf.computeBit then
      { ind with compute_family := some i } else ind
    let ind := if qf.transferBit then
      { ind with transfer_family := some i } else ind
    let ind := if qf.presentSupport then
      { ind with present_family := some i } else ind
    if ind.IsComplete then ind else findQueueFamiliesAux rest (i + 1) ind

namespace VulkanBackend

/-- Embeds `VulkanBackend::FindQueueFamilies`. -/
def FindQueueFamilies (d : PhysicalDevice) : QueueFamilyIndices :=
  findQueueFamiliesAux d.queueFamilies 0 {}

/-- Embeds `VulkanBackend::CheckDeviceExtensionSupport`: every required extension
must appear among the device's available extensions (the source erases
found names from the required set and checks it ended empty). -/
def CheckDeviceExtensionSupport (d : PhysicalDevice) : Bool :=
  deviceExtensions.all (fun e => d.availableExtensions.contains e)

/-- Score computation for one device: the body of the loop in
`VulkanBackend::PickPhysicalDevice`, with `uint32_t` additions. Note the
source adds the geometry-shader and anisotropy bonuses AFTER the three
checks that force the score to zero. -/
def deviceScore (d : PhysicalDevice) : Nat :=
  let score : Nat := 0
  let score := if d.deviceType = .DISCRETE_GPU then u32add score 10000
    else if d.deviceType = .INTEGRATED_GPU then u32add score 1000
    else u32add score 100
  let score := u32add score d.maxImageDimension2D
  let score := if (FindQueueFamilies d).IsComplete then score else 0
  let score := if score > 0 && !(CheckDeviceExtensionSupport d) then 0
    else score
  let score := if score > 0 &&
      (d.formats.isEmpty || d.present_modes.isEmpty) then 0 else score
  let score := if d.geometryShader then u32add score 100 else score
  let score := if d.samplerAnisotropy then u32add score 50 else score
  score

/-- Selection loop: keep the best score seen so far, strict improvement
required (`score > bestScore`), so ties go to the earlier device. -/
def pickLoop :
    List PhysicalDevice → Nat → Option PhysicalDevice →
      Nat × Option PhysicalDevice
  | [], bestScore, bestDevice => (bestScore, bestDevice)
  | d :: rest, bestScore, bestDevice =>
    let score := deviceScore d
    if score > bestScore then pickLoop rest score (some d)
    else pickLoop rest bestScore bestDevice

/-- Embeds `VulkanBackend::PickPhysicalDevice` over the enumerated device list:
fails when no devices exist or no device ends with a nonzero best score. -/
def PickPhysicalDevice (devices : List PhysicalDevice) :
    Except BackendResult PhysicalDevice :=
  if devices.isEmpty then .error .FAILED_INITIALIZATION
  else
    match pickLoop devices 0 none with
    | (bestScore, bestDevice) =>
      match bestDevice with
      | none => .error .FAILED_INITIALIZATION
      | some d =>
        if bestScore = 0 then .error .FAILED_INITIALIZATION else .ok d

/-- The suitability checks of the scoring loop: complete queue families,
swapchain extension support, and nonempty formats and present modes. -/
def suitable (d : PhysicalDevice) : Prop :=
  (FindQueueFamilies d).IsComplete = true ∧
  CheckDeviceExtensionSupport d = true ∧
  d.formats ≠ [] ∧ d.present_modes ≠ []

/-- The device-type weight term of the score. -/
def typeWeight (d : PhysicalDevice) : Nat :=
  if d.deviceType = .DISCRETE_GPU then 10000
  else if d.deviceType = .INTEGRATED_GPU then 1000
  else 100

/-- The geometry-shader and anisotropic-sampler bonus terms of the
score. -/
def featureBonus (d : PhysicalDevice) : Nat :=
  (if d.geometryShader then 100 else 0) +
  (if d.samplerAnisotropy then 50 else 0)

end VulkanBackend

/-- A queue family advertising every capability including presentation. -/
def fullQueueFamily : QueueFamilyProps :=
  { graphicsBit := true, computeBit := true, transferBit := true,
    presentSupport := true }

/-- A device that fails the queue-family suitability check (no queue
families at all) but advertises geometry shaders and anisotropic
sampling. -/
def unsuitableWithBonuses : PhysicalDevice :=
  { deviceType := .DISCRETE_GPU, maxImageDimension2D := 4096,
    geometryShader := true, samplerAnisotropy := true,
    queueFamilies := [], availableExtensions := [],
    formats := [], present_modes := [] }

/-- A fully suitable device of non-GPU type with the minimum possible
score (100). -/
def minimalSuitable : PhysicalDevice :=
  { deviceType := .OTHER, maxImageDimension2D := 0,
    geometryShader := false, samplerAnisotropy := false,
    queueFamilies := [fullQueueFamily],
    availableExtensions := ["VK_KHR_swapchain"],
    formats := [0], present_modes := [0] }

/-- A suitable discrete GPU reporting maxImageDimension2D = 16384. -/
def discreteSmallDim : PhysicalDevice :=
  { deviceType := .DISCRETE_GPU, maxImageDimension2D := 16384,
    geometryShader := false, samplerAnisotropy := false,
    queueFamilies := [fullQueueFamily],
    availableExtensions := ["VK_KHR_swapchain"],
    formats := [0], present_modes := [0] }

/-- A suitable integrated GPU reporting maxImageDimension2D = 32768. -/
def integratedLargeDim : PhysicalDevice :=
  { deviceType := .INTEGRATED_GPU, maxImageDimension2D := 32768,
    geometryShader := false, samplerAnisotropy := false,
    queueFamilies := [fullQueueFamily],
    availableExtensions := ["VK_KHR_swapchain"],
    formats := [0], present_modes := [0] }

/-- A suitable integrated GPU reporting maxImageDimension2D = 100. -/
def integratedTinyDim : PhysicalDevice :=
  { deviceType := .INTEGRATED_GPU, maxImageDimension2D := 100,
    geometryShader := false, samplerAnisotropy := false,
    queueFamilies := [fullQueueFamily],
    availableExtensions := ["VK_KHR_swapchain"],
    formats := [0], present_modes := [0] }

/-! Vulkan backend state machine (vulkan_backend.cpp). Native handles are
modelled as `Option Nat` (`none` = VK_NULL_HANDLE); the outcomes of native
calls that depend on the driver/window environment are oracle arguments. -/

/-- Bit width constant for the `uint64_t` frames_rendered counter. -/
def U64 : Nat := 18446744073709551616

/-- VkResult values distinguished by the frame functions; `ERROR_DEVICE_LOST`
and `ERROR_SURFACE_LOST` stand for the non-transient acquisition and
presentation errors hitting the catch-all branches. -/
inductive VkResult
  | SUCCESS
  | SUBOPTIMAL_KHR
  | ERROR_OUT_OF_DATE_KHR
  | ERROR_DEVICE_LOST
  | ERROR_SURFACE_LOST
deriving DecidableEq, Repr

/-- The mutable members of `VulkanBackend` (vulkan_backend.h). -/
structure VulkanState where
  config : GraphicsConfig
  instanceH : Option Nat
  debugMessenger : Option Nat
  surface : Option Nat
  physicalDevice : Option Nat
  device : Option Nat
  swapchain : Option Nat
  swapchainImageViews : List Nat
  swapchainExtent : Nat × Nat
  commandPool : Option Nat
  commandBuffers : List Nat
  imageAvailableSemaphores : List (Option Nat)
  renderFinishedSemaphores : List (Option Nat)
  inFlightFences : List (Option Nat)
  isInitialized : Bool
  deviceLost : Bool
  framebufferResized : Bool
  currentFrame : Nat
  imageIndex : Nat
  framesRendered : Nat
deriving DecidableEq, Repr

namespace VulkanBackend

/-- Embeds `VulkanBackend::RecreateSwapchain` after the minimized-window wait:
waits for device idle, destroys the current image views and swapchain
objects, and runs the placeholder `CreateSwapchain`/`CreateImageViews`.
None of these steps assigns any member field (`CleanupSwapchain` does not
clear the handle members and the create helpers are placeholders), so the
state is returned unchanged with SUCCESS. -/
def RecreateSwapchain (s : VulkanState) : VulkanState × BackendResult :=
  (s, .SUCCESS)

/-- Advance bookkeeping at the end of `Present`: `uint32_t`
`m_CurrentFrame = (m_CurrentFrame + 1) % max_frames_in_flight` and
`uint64_t` `m_Stats.frames_rendered++`. -/
def advanceFrame (s : VulkanState) : VulkanState :=
  { s with
    currentFrame :=
      (u32add s.currentFrame 1) % s.config.render.max_frames_in_flight,
    framesRendered := (s.framesRendered + 1) % U64 }

/-- Embeds `VulkanBackend::BeginFrame`. Oracles: `acquireResult`/`acquiredIndex`
stand for the outcome of `vkAcquireNextImageKHR` (the index is written only
on a successful or suboptimal acquisition), `beginCmdOk` for whether
`vkBeginCommandBuffer` succeeds. The trailing Bool reports whether
`RecreateSwapchain` was invoked. -/
def BeginFrame (s : VulkanState) (acquireResult : VkResult)
    (acquiredIndex : Nat) (beginCmdOk : Bool) :
    VulkanState × BackendResult × Bool :=
  if s.isInitialized = false then (s, .FAILED_INITIALIZATION, false)
  else if acquireResult = .ERROR_OUT_OF_DATE_KHR then
    ((RecreateSwapchain s).1, .SUCCESS, true)
  else if acquireResult ≠ .SUCCESS ∧ acquireResult ≠ .SUBOPTIMAL_KHR then
    (s, .FAILED_SWAPCHAIN_CREATION, false)
  else
    let s := { s with imageIndex := acquiredIndex }
    if beginCmdOk = false then (s, .FAILED_COMMAND_BUFFER_CREATION, false)
    else (s, .SUCCESS, false)

/-- Embeds `VulkanBackend::EndFrame`. Oracle: `endCmdOk` stands for whether
`vkEndCommandBuffer` succeeds. -/
def EndFrame (s : VulkanState) (endCmdOk : Bool) :
    VulkanState × BackendResult :=
  if s.isInitialized = false then (s, .FAILED_INITIALIZATION)
  else if endCmdOk = false then (s, .FAILED_COMMAND_BUFFER_CREATION)
  else (s, .SUCCESS)

/-- Embeds `VulkanBackend::Present`. Oracles: `submitOk` stands for whether
`vkQueueSubmit` succeeds, `presentResult` for the `vkQueuePresentKHR`
result. The trailing Bool reports whether `RecreateSwapchain` was
invoked. -/
def Present (s : VulkanState) (submitOk : Bool) (presentResult : VkResult) :
    VulkanState × BackendResult × Bool :=
  if s.isInitialized = false then (s, .FAILED_INITIALIZATION, false)
  else if submitOk = false then (s, .UNKNOWN_ERROR, false)
  else if presentResult = .ERROR_OUT_OF_DATE_KHR ∨
      presentResult = .SUBOPTIMAL_KHR ∨ s.framebufferResized = true then
    (advanceFrame (RecreateSwapchain
      { s with framebufferResized := false }).1, .SUCCESS, true)
  else if presentResult ≠ .SUCCESS then (s, .UNKNOWN_ERROR, false)
  else (advanceFrame s, .SUCCESS, false)

/-- Embeds `VulkanBackend::HandleResize(width, height)`: the source only sets
`m_FramebufferResized = true` and returns SUCCESS; the two parameters are
not used. -/
def HandleResize (s : VulkanState) (width height : Nat) :
    VulkanState × BackendResult :=
  ({ s with framebufferResized := true }, .SUCCESS)

end VulkanBackend

/-! Shutdown is modelled as the final state together with the trace of
native release calls it makes, so the release order is provable. -/

/-- One native call made during `VulkanBackend::Shutdown`. -/
inductive ShutdownEvent
  | deviceWaitIdle
  | destroySemaphore (h : Nat)
  | destroyFence (h : Nat)
  | destroyCommandPool (h : Nat)
  | destroyImageView (h : Nat)
  | destroySwapchain (h : Nat)
  | destroyDevice (h : Nat)
  | destroyDebugMessenger (h : Nat)
  | destroySurface (h : Nat)
  | destroyInstance (h : Nat)
deriving DecidableEq, Repr

/-- Destroy a handle if it is not VK_NULL_HANDLE. -/
def destroyOpt (f : Nat → ShutdownEvent) : Option Nat → List ShutdownEvent
  | some h => [f h]
  | none => []

/-- Position of an event in the reverse-creation order of spec §3:
sync objects → command pool → swapchain/views → device → debug messenger →
surface → instance (the device-idle wait precedes everything). -/
def eventGroup : ShutdownEvent → Nat
  | .deviceWaitIdle => 0
  | .destroySemaphore _ => 1
  | .destroyFence _ => 1
  | .destroyCommandPool _ => 2
  | .destroyImageView _ => 3
  | .destroySwapchain _ => 4
  | .destroyDevice _ => 5
  | .destroyDebugMessenger _ => 6
  | .destroySurface _ => 7
  | .destroyInstance _ => 8

namespace VulkanBackend

/-- Embeds `VulkanBackend::WaitIdle`: calls `vkDeviceWaitIdle` only when the
device handle is non-null. -/
def WaitIdleEvents (s : VulkanState) : List ShutdownEvent :=
  match s.device with
  | some _ => [.deviceWaitIdle]
  | none => []

/-- One iteration of the sync-object cleanup loop: for slot `i`, destroy
the render-finished semaphore, image-available semaphore, and in-flight
fence of that slot (each only when non-null). -/
def slotSyncEvents (s : VulkanState) (i : Nat) : List ShutdownEvent :=
  destroyOpt .destroySemaphore (s.renderFinishedSemaphores[i]?.join) ++
  destroyOpt .destroySemaphore (s.imageAvailableSemaphores[i]?.join) ++
  destroyOpt .destroyFence (s.inFlightFences[i]?.join)

/-- The sync-object cleanup loop over slots 0, ..., n-1 in order. -/
def syncEventsUpTo (s : VulkanState) : Nat → List ShutdownEvent
  | 0 => []
  | n + 1 => syncEventsUpTo s n ++ slotSyncEvents s n

/-- Embeds `VulkanBackend::CleanupSwapchain`: destroy every stored image view,
then the swapchain when non-null (the member fields are not cleared). -/
def CleanupSwapchainEvents (s : VulkanState) : List ShutdownEvent :=
  s.swapchainImageViews.map .destroyImageView ++
  destroyOpt .destroySwapchain s.swapchain

/-- The release calls `VulkanBackend::Shutdown` makes on an initialized
backend, in source order: device-idle wait, per-slot sync objects, command
pool, swapchain cleanup, device, debug messenger (when validation is
enabled; the destruction-procedure lookup is assumed to succeed), surface,
instance. -/
def shutdownEventList (s : VulkanState) : List ShutdownEvent :=
  WaitIdleEvents s ++
  syncEventsUpTo s s.config.render.max_frames_in_flight ++
  destroyOpt .destroyCommandPool s.commandPool ++
  CleanupSwapchainEvents s ++
  destroyOpt .destroyDevice s.device ++
  (if s.config.render.enable_validation then
    destroyOpt .destroyDebugMessenger s.debugMessenger else []) ++
  destroyOpt .destroySurface s.surface ++
  destroyOpt .destroyInstance s.instanceH

/-- Embeds `VulkanBackend::Shutdown`: no-op when not initialized; otherwise waits
for device idle and issues the release calls in source order, then clears
only the initialized flag. No handle member is assigned null. -/
def Shutdown (s : VulkanState) : VulkanState × List ShutdownEvent :=
  if s.isInitialized = false then (s, [])
  else ({ s with isInitialized := false }, shutdownEventList s)

end VulkanBackend

/-! DirectX12 stub backend (dx12_backend.cpp): the state members its frame
functions actually touch. -/

/-- The mutable members of `DirectX12Backend` touched by frame
operations. -/
structure DX12State where
  config : GraphicsConfig
  isInitialized : Bool
  currentBackBuffer : Nat
  fenceValue : Nat
  framesRendered : Nat
deriving DecidableEq, Repr

namespace DirectX12Backend

/-- Embeds `DirectX12Backend::BeginFrame` (stub): increments
`m_Stats.frames_rendered` and returns SUCCESS. -/
def BeginFrame (s : DX12State) : DX12State × BackendResult :=
  if s.isInitialized = false then (s, .FAILED_INITIALIZATION)
  else ({ s with framesRendered := (s.framesRendered + 1) % U64 }, .SUCCESS)

/-- Embeds `DirectX12Backend::EndFrame` (stub). -/
def EndFrame (s : DX12State) : DX12State × BackendResult :=
  if s.isInitialized = false then (s, .FAILED_INITIALIZATION)
  else (s, .SUCCESS)

/-- Embeds `DirectX12Backend::Present` (stub): advances
`m_CurrentBackBuffer = (m_CurrentBackBuffer + 1) % 3` and returns SUCCESS
without touching `frames_rendered`. -/
def Present (s : DX12State) : DX12State × BackendResult :=
  if s.isInitialized = false then (s, .FAILED_INITIALIZATION)
  else ({ s with currentBackBuffer := (u32add s.currentBackBuffer 1) % 3 },
    .SUCCESS)

end DirectX12Backend

/-! Graphics frontend render step (graphics_frontend.cpp
`GraphicsFrontend::Render`). Backend results are oracle arguments; the
trace records which backend calls and callbacks ran, in order. -/

/-- Kind of a frontend state value (graphics_frontend.h). -/
inductive FrontendStateKind
  | UNINITIALIZED
  | INITIALIZING
  | RUNNING
  | PAUSED
  | SHUTTING_DOWN
  | ERROR_STATE
deriving DecidableEq, Repr

/-- The frontend members `Render` could conceivably touch. -/
structure FrontendState where
  config : GraphicsConfig
  state : FrontendStateKind
  shouldClose : Bool
  resizeRequested : Bool
  newWidth : Nat
  newHeight : Nat
  frameCount : Nat
deriving DecidableEq, Repr

/-- One call made during a `GraphicsFrontend::Render` step. -/
inductive RenderCall
  | beginFrame
  | renderCallback
  | endFrame
  | present
deriving DecidableEq, Repr

/-- Embeds `GraphicsFrontend::Render`: early-returns when no backend exists;
calls `BeginFrame`, then (if it succeeded) the optional render callback
and `EndFrame`, then (if that succeeded) `Present`; failures only log.
`hasBackend`/`hasRenderCallback` describe which optional collaborators are
installed, the three results are the backend's answers. -/
def GraphicsFrontend.Render (fs : FrontendState) (hasBackend : Bool)
    (hasRenderCallback : Bool) (beginRes endRes presentRes : BackendResult) :
    FrontendState × List RenderCall :=
  if hasBackend = false then (fs, [])
  else if beginRes ≠ .SUCCESS then (fs, [.beginFrame])
  else
    let calls := [RenderCall.beginFrame] ++
      (if hasRenderCallback then [RenderCall.renderCallback] else [])
    if endRes ≠ .SUCCESS then (fs, calls ++ [.endFrame])
    else (fs, calls ++ [.endFrame, .present])

/-! Concrete states used by witnesses and counterexamples. -/

/-- An initialized Vulkan backend state with max_frames_in_flight = 2 and
all handles live. -/
def vkStateEx : VulkanState :=
  { config := { render := { max_frames_in_flight := 2 } },
    instanceH := some 1, debugMessenger := some 2, surface := some 3,
    physicalDevice := some 4, device := some 5, swapchain := some 6,
    swapchainImageViews := [7, 8], swapchainExtent := (100, 100),
    commandPool := some 9, commandBuffers := [10, 11],
    imageAvailableSemaphores := [some 12, some 13],
    renderFinishedSemaphores := [some 14, some 15],
    inFlightFences := [some 16, some 17],
    isInitialized := true, deviceLost := false, framebufferResized := false,
    currentFrame := 0, imageIndex := 0, framesRendered := 0 }

/-- An initialized DirectX12 stub state with max_frames_in_flight = 2. -/
def dx12StateEx : DX12State :=
  { config := { render := { max_frames_in_flight := 2 } },
    isInitialized := true, currentBackBuffer := 0, fenceValue := 0,
    framesRendered := 0 }

/-- A frontend state in the RUNNING state. -/
def feStateEx : FrontendState :=
  { config := {}, state := .RUNNING, shouldClose := false,
    resizeRequested := false, newWidth := 0, newHeight := 0,
    frameCount := 0 }

end Lumios

open Lumios

/-- Claim C4 counterexample: the configuration whose
max_frames_in_flight is 9 (outside [1,8], reachable through the non-const
`GetRenderConfig()` reference) satisfies `IsValid`, yet violates the spec's
data-model invariants, refuting "IsValid() returns true exactly when all
invariants of the data model hold". -/
theorem C4_isValid_counterexample :
    GraphicsConfig.IsValid configWithNineFrames = true ∧
    ¬ specConfigInvariants configWithNineFrames := by
  constructor
  · rfl
  · decide

/-- Claim C4 (amended): `IsValid()` returns true exactly when width ≥ 1,
height ≥ 1, the title is non-empty, max_frames_in_flight ≥ 1 and
target_fps ≥ 1; the upper bounds 8 and 300 and the FPS lower bound 30 are
not checked by `IsValid` (they are maintained by the setters' clamping
instead). -/
theorem C4_amended_isValid (c : GraphicsConfig) :
    GraphicsConfig.IsValid c = true ↔
      (1 ≤ c.window.width ∧ 1 ≤ c.window.height ∧ c.window.title ≠ "" ∧
       1 ≤ c.render.max_frames_in_flight ∧ 1 ≤ c.performance.target_fps) := by
  unfold GraphicsConfig.IsValid
  simp [← String.isEmpty_iff, Nat.succ_le_iff, and_assoc]

/-- Claim C5: `SetVSync(true)` yields vsync = true and present mode FIFO;
`SetVSync(false)` yields vsync = false and present mode IMMEDIATE;
`SetPresentMode(m)` stores m and sets vsync exactly when m is FIFO or
FIFO_RELAXED; after either setter the vsync flag and present mode agree. -/
theorem C5_vsync_present_mode_sync (c : GraphicsConfig) (b : Bool)
    (m : PresentMode) :
    (c.SetVSync true).window.vsync = true ∧
    (c.SetVSync true).render.present_mode = .FIFO ∧
    (c.SetVSync false).window.vsync = false ∧
    (c.SetVSync false).render.present_mode = .IMMEDIATE ∧
    (c.SetPresentMode m).render.present_mode = m ∧
    (c.SetPresentMode m).window.vsync =
      (m = .FIFO || m = .FIFO_RELAXED : Bool) ∧
    vsyncAgrees (c.SetVSync b) ∧
    vsyncAgrees (c.SetPresentMode m) := by
  refine ⟨rfl, rfl, rfl, rfl, rfl, rfl, ?_, ?_⟩
  · cases b <;> simp [GraphicsConfig.SetVSync, vsyncAgrees]
  · cases m <;> simp [GraphicsConfig.SetPresentMode, vsyncAgrees]

/-- Claim C9: `SetWindowTitle` stores the given title when it is non-empty
and the default title "Lumios Engine" when it is empty, so the stored title
is never empty. -/
theorem C9_setWindowTitle_nonempty (c : GraphicsConfig) (t : String) :
    (c.SetWindowTitle t).window.title =
      (if t = "" then "Lumios Engine" else t) ∧
    (c.SetWindowTitle t).window.title ≠ "" := by
  have h : (c.SetWindowTitle t).window.title =
      (if t = "" then "Lumios Engine" else t) := by
    simp only [GraphicsConfig.SetWindowTitle, String.isEmpty_iff]
  refine ⟨h, ?_⟩
  rw [h]
  by_cases ht : t = "" <;> simp [ht]

/-- For a device passing all three suitability checks, with no `uint32_t`
overflow, the final score is type weight + maxImageDimension2D + feature
bonuses. -/
theorem deviceScore_eq_of_suitable (d : PhysicalDevice)
    (hs : VulkanBackend.suitable d)
    (hb : VulkanBackend.typeWeight d + d.maxImageDimension2D +
      VulkanBackend.featureBonus d < U32) :
    VulkanBackend.deviceScore d =
      VulkanBackend.typeWeight d + d.maxImageDimension2D +
        VulkanBackend.featureBonus d := by
  obtain ⟨hq, he, hf, hp⟩ := hs
  have hf' : d.formats.isEmpty = false := by
    simpa [List.isEmpty_iff] using hf
  have hp' : d.present_modes.isEmpty = false := by
    simpa [List.isEmpty_iff] using hp
  unfold VulkanBackend.deviceScore
  rw [hq, he, hf', hp']
  unfold VulkanBackend.typeWeight VulkanBackend.featureBonus at *
  obtain ⟨dt, dim, gs, sa, qf, ex, fo, pm⟩ := d
  simp only at *
  cases dt <;> cases gs <;> cases sa <;>
    simp only [if_true, if_false, reduceCtorEq, if_neg, if_pos,
      Bool.true_and, Bool.false_and, Bool.and_true, Bool.and_false,
      Bool.not_true, Bool.not_false, u32add, U32] at * <;>
    simp_all

/-- Claim C1: the geometry-shader and anisotropy bonuses are added AFTER
the checks that force the score to zero, so a device with no queue
families at all (hence no graphics or present family), no swapchain
extension and no formats/present modes still ends the scoring loop with
score 150 and is selected over a fully suitable device scoring 100 —
contradicting the spec's "score is forced to zero ... and never
selected". -/
theorem C1_unsuitable_device_scores_and_wins :
    VulkanBackend.deviceScore unsuitableWithBonuses = 150 ∧
    (VulkanBackend.FindQueueFamilies unsuitableWithBonuses).IsComplete
      = false ∧
    VulkanBackend.CheckDeviceExtensionSupport unsuitableWithBonuses
      = false ∧
    VulkanBackend.deviceScore minimalSuitable = 100 ∧
    VulkanBackend.PickPhysicalDevice [minimalSuitable, unsuitableWithBonuses]
      = .ok unsuitableWithBonuses := by
  refine ⟨rfl, rfl, rfl, rfl, rfl⟩

/-- Claim C8 counterexample: a suitable discrete GPU with
maxImageDimension2D = 16384 (score 26384) loses the selection to a
suitable integrated GPU with maxImageDimension2D = 32768 (score 33768),
refuting "the selection scoring ranks the discrete device above the
integrated one even when the integrated device reports a larger
maxImageDimension2D limit". -/
theorem C8_integrated_outscores_discrete :
    VulkanBackend.deviceScore discreteSmallDim = 26384 ∧
    VulkanBackend.deviceScore integratedLargeDim = 33768 ∧
    VulkanBackend.PickPhysicalDevice [discreteSmallDim, integratedLargeDim]
      = .ok integratedLargeDim := by
  refine ⟨rfl, rfl, rfl⟩

/-- Claim C2 counterexample: in the DirectX12 stub backend initialized
with max_frames_in_flight = 2, a successful Present does NOT increment
frames_rendered (BeginFrame increments it instead), and two Presents move
the back-buffer index to 2, which is impossible for an index advanced
modulo N = 2 — refuting the claim for "every backend". -/
theorem C2_dx12_counterexample :
    dx12StateEx.config.render.max_frames_in_flight = 2 ∧
    (DirectX12Backend.Present dx12StateEx).2 = .SUCCESS ∧
    (DirectX12Backend.Present dx12StateEx).1.framesRendered =
      dx12StateEx.framesRendered ∧
    (DirectX12Backend.BeginFrame dx12StateEx).1.framesRendered =
      dx12StateEx.framesRendered + 1 ∧
    (DirectX12Backend.Present
      (DirectX12Backend.Present dx12StateEx).1).1.currentBackBuffer = 2 :=
  ⟨rfl, rfl, rfl, rfl, rfl⟩

/-- Claim C2 (amended): in the Vulkan backend, every successful Present
advances the current-frame index by exactly one modulo
max_frames_in_flight and increments frames_rendered by exactly one; a
non-successful Present changes nothing; and no other frame operation
(BeginFrame, EndFrame, HandleResize, RecreateSwapchain) changes either
counter. (The DirectX12 stub behaves differently, see the
counterexample.) -/
theorem C2_amended_frame_cycle (s : VulkanState)
    (submitOk beginCmdOk endCmdOk : Bool) (acq pr : VkResult)
    (idx w h : Nat)
    (hcur : s.currentFrame < s.config.render.max_frames_in_flight)
    (hN32 : s.config.render.max_frames_in_flight ≤ U32)
    (hfr : s.framesRendered + 1 < U64) :
    ((VulkanBackend.Present s submitOk pr).2.1 = .SUCCESS →
      (VulkanBackend.Present s submitOk pr).1.currentFrame =
        (s.currentFrame + 1) % s.config.render.max_frames_in_flight ∧
      (VulkanBackend.Present s submitOk pr).1.framesRendered =
        s.framesRendered + 1) ∧
    ((VulkanBackend.Present s submitOk pr).2.1 ≠ .SUCCESS →
      (VulkanBackend.Present s submitOk pr).1 = s) ∧
    (VulkanBackend.BeginFrame s acq idx beginCmdOk).1.currentFrame =
      s.currentFrame ∧
    (VulkanBackend.BeginFrame s acq idx beginCmdOk).1.framesRendered =
      s.framesRendered ∧
    (VulkanBackend.EndFrame s endCmdOk).1 = s ∧
    (VulkanBackend.HandleResize s w h).1.currentFrame = s.currentFrame ∧
    (VulkanBackend.HandleResize s w h).1.framesRendered = s.framesRendered ∧
    (VulkanBackend.RecreateSwapchain s).1 = s := by
  have hfr' : (s.framesRendered + 1) % U64 = s.framesRendered + 1 :=
    Nat.mod_eq_of_lt hfr
  have key : ((s.currentFrame + 1) % U32) %
      s.config.render.max_frames_in_flight =
      (s.currentFrame + 1) % s.config.render.max_frames_in_flight := by
    rcases Nat.lt_or_ge (s.currentFrame + 1) U32 with hlt | hge
    · rw [Nat.mod_eq_of_lt hlt]
    · have h1 : s.currentFrame + 1 = U32 := by omega
      have h2 : s.config.render.max_frames_in_flight = U32 := by omega
      rw [h1, h2]
      simp
  refine ⟨?_, ?_, ?_, ?_, ?_, rfl, rfl, rfl⟩
  · intro hsucc
    simp only [VulkanBackend.Present, VulkanBackend.advanceFrame,
      VulkanBackend.RecreateSwapchain, u32add] at hsucc ⊢
    split_ifs at hsucc ⊢ <;> simp_all
  · intro hne
    simp only [VulkanBackend.Present, VulkanBackend.advanceFrame,
      VulkanBackend.RecreateSwapchain, u32add] at hne ⊢
    split_ifs at hne ⊢ <;> simp_all
  · simp only [VulkanBackend.BeginFrame, VulkanBackend.RecreateSwapchain]
    split_ifs <;> rfl
  · simp only [VulkanBackend.BeginFrame, VulkanBackend.RecreateSwapchain]
    split_ifs <;> rfl
  · simp only [VulkanBackend.EndFrame]
    split_ifs <;> rfl

/-- Claim C2 witness: on the concrete initialized Vulkan state with
max_frames_in_flight = 2, a successful Present advances the current frame
modulo 2 and counts one rendered frame. -/
theorem C2_amended_frame_cycle_witness :
    (VulkanBackend.Present vkStateEx true .SUCCESS).1.currentFrame =
      (vkStateEx.currentFrame + 1) %
        vkStateEx.config.render.max_frames_in_flight ∧
    (VulkanBackend.Present vkStateEx true .SUCCESS).1.framesRendered =
      vkStateEx.framesRendered + 1 :=
  (C2_amended_frame_cycle vkStateEx true true true .SUCCESS .SUCCESS 0 0 0
    (by decide) (by decide) (by decide)).1 (by decide)

/-- Claim C8 (amended): both devices suitable, the discrete one wins
whenever the integrated device's maxImageDimension2D-plus-bonus total does
not make up the 9000-point type-weight gap (10000 for discrete vs 1000 for
integrated), in either enumeration order; with a large enough integrated
limit the integrated device wins instead (see the counterexample). -/
theorem C8_amended_type_weight (d i : PhysicalDevice)
    (hd : d.deviceType = .DISCRETE_GPU)
    (hi : i.deviceType = .INTEGRATED_GPU)
    (hsd : VulkanBackend.suitable d)
    (hsi : VulkanBackend.suitable i)
    (hod : 10000 + d.maxImageDimension2D + 150 < U32)
    (hoi : 1000 + i.maxImageDimension2D + 150 < U32)
    (hmargin : 1000 + i.maxImageDimension2D + VulkanBackend.featureBonus i <
      10000 + d.maxImageDimension2D + VulkanBackend.featureBonus d) :
    VulkanBackend.PickPhysicalDevice [d, i] = .ok d ∧
    VulkanBackend.PickPhysicalDevice [i, d] = .ok d := by
  have hbD : VulkanBackend.featureBonus d ≤ 150 := by
    unfold VulkanBackend.featureBonus
    rcases d.geometryShader <;> rcases d.samplerAnisotropy <;> simp
  have hbI : VulkanBackend.featureBonus i ≤ 150 := by
    unfold VulkanBackend.featureBonus
    rcases i.geometryShader <;> rcases i.samplerAnisotropy <;> simp
  have htD : VulkanBackend.typeWeight d = 10000 := by
    unfold VulkanBackend.typeWeight
    rw [hd]
    simp
  have htI : VulkanBackend.typeWeight i = 1000 := by
    unfold VulkanBackend.typeWeight
    rw [hi]
    simp
  have hSD : VulkanBackend.deviceScore d =
      10000 + d.maxImageDimension2D + VulkanBackend.featureBonus d := by
    rw [deviceScore_eq_of_suitable d hsd (by rw [htD]; omega), htD]
  have hSI : VulkanBackend.deviceScore i =
      1000 + i.maxImageDimension2D + VulkanBackend.featureBonus i := by
    rw [deviceScore_eq_of_suitable i hsi (by rw [htI]; omega), htI]
  have c1 : VulkanBackend.deviceScore d > 0 := by omega
  have c2 : ¬ VulkanBackend.deviceScore i > VulkanBackend.deviceScore d := by
    omega
  have c3 : VulkanBackend.deviceScore i > 0 := by omega
  have c4 : VulkanBackend.deviceScore d > VulkanBackend.deviceScore i := by
    omega
  have c5 : ¬ VulkanBackend.deviceScore d = 0 := by omega
  constructor
  · have hp : VulkanBackend.pickLoop [d, i] 0 none =
        (VulkanBackend.deviceScore d, some d) := by
      simp only [VulkanBackend.pickLoop]
      rw [if_pos c1, if_neg c2]
    unfold VulkanBackend.PickPhysicalDevice
    rw [hp]
    simp [c5]
  · have hp : VulkanBackend.pickLoop [i, d] 0 none =
        (VulkanBackend.deviceScore d, some d) := by
      simp only [VulkanBackend.pickLoop]
      rw [if_pos c3, if_pos c4]
    unfold VulkanBackend.PickPhysicalDevice
    rw [hp]
    simp [c5]

/-- Claim C8 witness: the suitable discrete GPU with limit 16384 beats a
suitable integrated GPU with limit 100 in both enumeration orders. -/
theorem C8_amended_type_weight_witness :
    VulkanBackend.PickPhysicalDevice [discreteSmallDim, integratedTinyDim]
      = .ok discreteSmallDim ∧
    VulkanBackend.PickPhysicalDevice [integratedTinyDim, discreteSmallDim]
      = .ok discreteSmallDim :=
  C8_amended_type_weight discreteSmallDim integratedTinyDim rfl rfl
    ⟨rfl, rfl, by decide, by decide⟩ ⟨rfl, rfl, by decide, by decide⟩
    (by decide) (by decide) (by decide)

/-- Elements produced by `destroyOpt f` have the event group of `f`. -/
theorem eventGroup_of_mem_destroyOpt (k : Nat) {f : Nat → ShutdownEvent}
    {o : Option Nat} {e : ShutdownEvent}
    (he : e ∈ destroyOpt f o) (hf : ∀ n, eventGroup (f n) = k) :
    eventGroup e = k := by
  cases o with
  | none => simp [destroyOpt] at he
  | some n =>
    simp [destroyOpt] at he
    subst he
    exact hf n

/-- Every event of one slot's sync-object cleanup is in group 1. -/
theorem eventGroup_of_mem_slotSync {s : VulkanState} {i : Nat}
    {e : ShutdownEvent} (he : e ∈ VulkanBackend.slotSyncEvents s i) :
    eventGroup e = 1 := by
  simp only [VulkanBackend.slotSyncEvents, List.mem_append] at he
  rcases he with (h | h) | h
  · exact eventGroup_of_mem_destroyOpt 1 h (fun _ => rfl)
  · exact eventGroup_of_mem_destroyOpt 1 h (fun _ => rfl)
  · exact eventGroup_of_mem_destroyOpt 1 h (fun _ => rfl)

/-- Every event of the sync-object cleanup loop is in group 1. -/
theorem eventGroup_of_mem_syncUpTo {s : VulkanState} {n : Nat}
    {e : ShutdownEvent} (he : e ∈ VulkanBackend.syncEventsUpTo s n) :
    eventGroup e = 1 := by
  induction n with
  | zero => simp [VulkanBackend.syncEventsUpTo] at he
  | succ n ih =>
    rw [VulkanBackend.syncEventsUpTo] at he
    rcases List.mem_append.mp he with h | h
    · exact ih h
    · exact eventGroup_of_mem_slotSync h

/-- Every event of the idle wait is in group 0. -/
theorem eventGroup_of_mem_waitIdle {s : VulkanState} {e : ShutdownEvent}
    (he : e ∈ VulkanBackend.WaitIdleEvents s) : eventGroup e = 0 := by
  unfold VulkanBackend.WaitIdleEvents at he
  rcases hd : s.device with _ | n
  · rw [hd] at he
    simp at he
  · rw [hd] at he
    simp at he
    subst he
    rfl

/-- Every event of the swapchain cleanup is in group 3 or 4. -/
theorem eventGroup_of_mem_cleanup {s : VulkanState} {e : ShutdownEvent}
    (he : e ∈ VulkanBackend.CleanupSwapchainEvents s) :
    3 ≤ eventGroup e ∧ eventGroup e ≤ 4 := by
  simp only [VulkanBackend.CleanupSwapchainEvents, List.mem_append] at he
  rcases he with h | h
  · obtain ⟨v, _, rfl⟩ := List.mem_map.mp h
    exact ⟨le_refl 3, by simp [eventGroup]⟩
  · have h4 := eventGroup_of_mem_destroyOpt 4 h (fun _ => rfl)
    omega

/-- A list of events all in one group maps to a (≤)-pairwise list. -/
theorem pairwiseGroups_of_const (k : Nat) {l : List ShutdownEvent}
    (h : ∀ e ∈ l, eventGroup e = k) :
    (l.map eventGroup).Pairwise (· ≤ ·) := by
  induction l with
  | nil => simp
  | cons a t ih =>
    rw [List.map_cons]
    refine List.Pairwise.cons ?_
      (ih (fun e he => h e (List.mem_cons_of_mem a he)))
    intro b hb
    obtain ⟨e, he, rfl⟩ := List.mem_map.mp hb
    rw [h a (List.mem_cons_self a t), h e (List.mem_cons_of_mem a he)]

/-- An append of two group-pairwise event lists separated by a boundary
group is group-pairwise. -/
theorem pairwiseGroups_append (k : Nat) {l1 l2 : List ShutdownEvent}
    (h1 : (l1.map eventGroup).Pairwise (· ≤ ·))
    (h2 : (l2.map eventGroup).Pairwise (· ≤ ·))
    (hb1 : ∀ e ∈ l1, eventGroup e ≤ k)
    (hb2 : ∀ e ∈ l2, k ≤ eventGroup e) :
    ((l1 ++ l2).map eventGroup).Pairwise (· ≤ ·) := by
  rw [List.map_append, List.pairwise_append]
  refine ⟨h1, h2, ?_⟩
  intro a ha b hb
  obtain ⟨e1, he1, rfl⟩ := List.mem_map.mp ha
  obtain ⟨e2, he2, rfl⟩ := List.mem_map.mp hb
  exact le_trans (hb1 e1 he1) (hb2 e2 he2)

/-- The helper `destroyOpt` produces a pairwise (sub-singleton) list. -/
theorem pairwiseGroups_destroyOpt {f : Nat → ShutdownEvent}
    {o : Option Nat} :
    ((destroyOpt f o).map eventGroup).Pairwise (· ≤ ·) := by
  cases o <;> simp [destroyOpt]

/-- A group upper bound carries through an append. -/
theorem groupBound_append (k : Nat) {l1 l2 : List ShutdownEvent}
    (h1 : ∀ e ∈ l1, eventGroup e ≤ k) (h2 : ∀ e ∈ l2, eventGroup e ≤ k) :
    ∀ e ∈ l1 ++ l2, eventGroup e ≤ k := by
  intro e he
  rcases List.mem_append.mp he with h | h
  · exact h1 e h
  · exact h2 e h

/-- The full shutdown release trace is ordered by release group: idle
wait, sync objects, command pool, swapchain/views, device, debug
messenger, surface, instance. -/
theorem shutdownEventList_pairwise (s : VulkanState) :
    ((VulkanBackend.shutdownEventList s).map eventGroup).Pairwise
      (· ≤ ·) := by
  have bA : ∀ e ∈ VulkanBackend.WaitIdleEvents s, eventGroup e ≤ 0 :=
    fun e he => le_of_eq (eventGroup_of_mem_waitIdle he)
  have bB : ∀ e ∈ VulkanBackend.syncEventsUpTo s
      s.config.render.max_frames_in_flight, eventGroup e = 1 :=
    fun e he => eventGroup_of_mem_syncUpTo he
  have bC : ∀ e ∈ destroyOpt ShutdownEvent.destroyCommandPool
      s.commandPool, eventGroup e = 2 :=
    fun e he => eventGroup_of_mem_destroyOpt 2 he (fun _ => rfl)
  have bD : ∀ e ∈ VulkanBackend.CleanupSwapchainEvents s,
      3 ≤ eventGroup e ∧ eventGroup e ≤ 4 :=
    fun e he => eventGroup_of_mem_cleanup he
  have bE : ∀ e ∈ destroyOpt ShutdownEvent.destroyDevice s.device,
      eventGroup e = 5 :=
    fun e he => eventGroup_of_mem_destroyOpt 5 he (fun _ => rfl)
  have bF : ∀ e ∈ (if s.config.render.enable_validation then
      destroyOpt ShutdownEvent.destroyDebugMessenger s.debugMessenger
      else []), eventGroup e = 6 := by
    intro e he
    split at he
    · exact eventGroup_of_mem_destroyOpt 6 he (fun _ => rfl)
    · simp at he
  have bG : ∀ e ∈ destroyOpt ShutdownEvent.destroySurface s.surface,
      eventGroup e = 7 :=
    fun e he => eventGroup_of_mem_destroyOpt 7 he (fun _ => rfl)
  have bH : ∀ e ∈ destroyOpt ShutdownEvent.destroyInstance s.instanceH,
      eventGroup e = 8 :=
    fun e he => eventGroup_of_mem_destroyOpt 8 he (fun _ => rfl)
  have pA : ((VulkanBackend.WaitIdleEvents s).map eventGroup).Pairwise
      (· ≤ ·) :=
    pairwiseGroups_of_const 0 (fun e he => eventGroup_of_mem_waitIdle he)
  have pB := pairwiseGroups_of_const 1 bB
  have pD : ((VulkanBackend.CleanupSwapchainEvents s).map
      eventGroup).Pairwise (· ≤ ·) := by
    unfold VulkanBackend.CleanupSwapchainEvents
    refine pairwiseGroups_append 4 ?_ pairwiseGroups_destroyOpt ?_ ?_
    · refine pairwiseGroups_of_const 3 ?_
      intro e he
      obtain ⟨v, _, rfl⟩ := List.mem_map.mp he
      rfl
    · intro e he
      obtain ⟨v, _, rfl⟩ := List.mem_map.mp he
      simp [eventGroup]
    · intro e he
      rw [eventGroup_of_mem_destroyOpt 4 he (fun _ => rfl)]
  have pF : (((if s.config.render.enable_validation then
      destroyOpt ShutdownEvent.destroyDebugMessenger s.debugMessenger
      else []) : List ShutdownEvent).map eventGroup).Pairwise (· ≤ ·) := by
    split
    · exact pairwiseGroups_destroyOpt
    · simp
  unfold VulkanBackend.shutdownEventList
  have p1 := pairwiseGroups_append 1 pA pB
    (fun e he => le_trans (bA e he) (by omega))
    (fun e he => le_of_eq (bB e he).symm)
  have b1 := groupBound_append 1 (fun e he => le_trans (bA e he)
    (by omega)) (fun e he => le_of_eq (bB e he))
  have p2 := pairwiseGroups_append 2 p1 (pairwiseGroups_of_const 2 bC)
    (fun e he => le_trans (b1 e he) (by omega))
    (fun e he => le_of_eq (bC e he).symm)
  have b2 := groupBound_append 2 (fun e he => le_trans (b1 e he)
    (by omega)) (fun e he => le_of_eq (bC e he))
  have p3 := pairwiseGroups_append 3 p2 pD
    (fun e he => le_trans (b2 e he) (by omega))
    (fun e he => (bD e he).1)
  have b3 := groupBound_append 4 (fun e he => le_trans (b2 e he)
    (by omega)) (fun e he => (bD e he).2)
  have p4 := pairwiseGroups_append 5 p3 (pairwiseGroups_of_const 5 bE)
    (fun e he => le_trans (b3 e he) (by omega))
    (fun e he => le_of_eq (bE e he).symm)
  have b4 := groupBound_append 5 (fun e he => le_trans (b3 e he)
    (by omega)) (fun e he => le_of_eq (bE e he))
  have p5 := pairwiseGroups_append 6 p4 pF
    (fun e he => le_trans (b4 e he) (by omega))
    (fun e he => le_of_eq (bF e he).symm)
  have b5 := groupBound_append 6 (fun e he => le_trans (b4 e he)
    (by omega)) (fun e he => le_of_eq (bF e he))
  have p6 := pairwiseGroups_append 7 p5 (pairwiseGroups_of_const 7 bG)
    (fun e he => le_trans (b5 e he) (by omega))
    (fun e he => le_of_eq (bG e he).symm)
  have b6 := groupBound_append 7 (fun e he => le_trans (b5 e he)
    (by omega)) (fun e he => le_of_eq (bG e he))
  exact pairwiseGroups_append 8 p6 (pairwiseGroups_of_const 8 bH)
    (fun e he => le_trans (b6 e he) (by omega))
    (fun e he => le_of_eq (bH e he).symm)

/-- Claim C6 counterexample: after shutting down the concrete initialized
state, the device and instance handle members still hold their old values
rather than being reset to null, refuting "resets all native handles to
null". -/
theorem C6_handles_not_nulled :
    vkStateEx.isInitialized = true ∧
    (VulkanBackend.Shutdown vkStateEx).1.device = some 5 ∧
    (VulkanBackend.Shutdown vkStateEx).1.device ≠ none ∧
    (VulkanBackend.Shutdown vkStateEx).1.instanceH ≠ none := by
  refine ⟨rfl, rfl, ?_, ?_⟩ <;> decide

/-- Claim C6 (amended): `Shutdown` is a no-op when the backend is not
initialized; otherwise it waits for device idle and releases the owned
native objects in strict reverse-creation order (sync objects, command
pool, swapchain/views, device, debug messenger, surface, instance),
releasing every live command-pool/device/surface/instance handle, and then
clears ONLY the initialized flag — the native handle members are NOT reset
to null; repeated calls are nevertheless safe because the cleared flag
makes every further call a no-op. -/
theorem C6_amended_shutdown (s : VulkanState) :
    (s.isInitialized = false → VulkanBackend.Shutdown s = (s, [])) ∧
    (s.isInitialized = true →
      (VulkanBackend.Shutdown s).1 = { s with isInitialized := false } ∧
      (VulkanBackend.Shutdown s).1.isInitialized = false ∧
      ((VulkanBackend.Shutdown s).2.map eventGroup).Pairwise (· ≤ ·) ∧
      (∀ n, s.commandPool = some n →
        ShutdownEvent.destroyCommandPool n ∈ (VulkanBackend.Shutdown s).2) ∧
      (∀ n, s.device = some n →
        ShutdownEvent.destroyDevice n ∈ (VulkanBackend.Shutdown s).2) ∧
      (∀ n, s.surface = some n →
        ShutdownEvent.destroySurface n ∈ (VulkanBackend.Shutdown s).2) ∧
      (∀ n, s.instanceH = some n →
        ShutdownEvent.destroyInstance n ∈ (VulkanBackend.Shutdown s).2) ∧
      VulkanBackend.Shutdown (VulkanBackend.Shutdown s).1 =
        ((VulkanBackend.Shutdown s).1, [])) := by
  constructor
  · intro h
    rw [VulkanBackend.Shutdown, if_pos h]
  · intro h
    have hno : ¬ (s.isInitialized = false) := by simp [h]
    have h1 : (VulkanBackend.Shutdown s).1 =
        { s with isInitialized := false } := by
      rw [VulkanBackend.Shutdown, if_neg hno]
    have h2 : (VulkanBackend.Shutdown s).2 =
        VulkanBackend.shutdownEventList s := by
      rw [VulkanBackend.Shutdown, if_neg hno]
    refine ⟨h1, by rw [h1], ?_, ?_, ?_, ?_, ?_, ?_⟩
    · rw [h2]
      exact shutdownEventList_pairwise s
    · intro n hn
      rw [h2]
      unfold VulkanBackend.shutdownEventList
      simp [destroyOpt, hn, List.mem_append]
    · intro n hn
      rw [h2]
      unfold VulkanBackend.shutdownEventList
      simp [destroyOpt, hn, List.mem_append]
    · intro n hn
      rw [h2]
      unfold VulkanBackend.shutdownEventList
      simp [destroyOpt, hn, List.mem_append]
    · intro n hn
      rw [h2]
      unfold VulkanBackend.shutdownEventList
      simp [destroyOpt, hn, List.mem_append]
    · rw [h1]
      rw [VulkanBackend.Shutdown, if_pos rfl]

/-- Claim C6 witness: on the concrete initialized state, shutting down
clears the initialized flag and a second shutdown is a no-op. -/
theorem C6_amended_shutdown_witness :
    (VulkanBackend.Shutdown vkStateEx).1.isInitialized = false ∧
    VulkanBackend.Shutdown (VulkanBackend.Shutdown vkStateEx).1 =
      ((VulkanBackend.Shutdown vkStateEx).1, []) :=
  ⟨((C6_amended_shutdown vkStateEx).2 rfl).2.1,
    ((C6_amended_shutdown vkStateEx).2 rfl).2.2.2.2.2.2.2⟩

/-- Claim C4 witness: the amended characterization evaluated at the
configuration with nine in-flight frames. -/
theorem C4_amended_isValid_witness :
    GraphicsConfig.IsValid configWithNineFrames = true ↔
      (1 ≤ configWithNineFrames.window.width ∧
       1 ≤ configWithNineFrames.window.height ∧
       configWithNineFrames.window.title ≠ "" ∧
       1 ≤ configWithNineFrames.render.max_frames_in_flight ∧
       1 ≤ configWithNineFrames.performance.target_fps) :=
  C4_amended_isValid configWithNineFrames

/-- Claim C9 witness: storing the empty title on the default configuration
yields the non-empty default title. -/
theorem C9_setWindowTitle_nonempty_witness :
    (GraphicsConfig.SetWindowTitle {} "").window.title =
      (if ("" : String) = "" then "Lumios Engine" else "") ∧
    (GraphicsConfig.SetWindowTitle {} "").window.title ≠ "" :=
  C9_setWindowTitle_nonempty {} ""

/-- Claim C3: `BeginFrame` returns FAILED_INITIALIZATION exactly when the
backend is not initialized; when initialized, an out-of-date acquisition
triggers swapchain recreation and returns SUCCESS, and any other
non-transient acquisition error returns FAILED_SWAPCHAIN_CREATION. -/
theorem C3_beginFrame_error_contract (s : VulkanState) (acq : VkResult)
    (idx : Nat) (ok : Bool) :
    ((VulkanBackend.BeginFrame s acq idx ok).2.1 = .FAILED_INITIALIZATION ↔
      s.isInitialized = false) ∧
    (s.isInitialized = true → acq = .ERROR_OUT_OF_DATE_KHR →
      (VulkanBackend.BeginFrame s acq idx ok).2.1 = .SUCCESS ∧
      (VulkanBackend.BeginFrame s acq idx ok).2.2 = true) ∧
    (s.isInitialized = true → acq ≠ .ERROR_OUT_OF_DATE_KHR →
      acq ≠ .SUCCESS → acq ≠ .SUBOPTIMAL_KHR →
      (VulkanBackend.BeginFrame s acq idx ok).2.1 =
        .FAILED_SWAPCHAIN_CREATION) := by
  cases hI : s.isInitialized <;> cases acq <;> cases ok <;>
    simp [VulkanBackend.BeginFrame, VulkanBackend.RecreateSwapchain, hI]

/-- Claim C3 witness: on the concrete initialized state, an out-of-date
acquisition yields SUCCESS with a recreation. -/
theorem C3_beginFrame_error_contract_witness :
    (VulkanBackend.BeginFrame vkStateEx .ERROR_OUT_OF_DATE_KHR 0 true).2.1 =
      .SUCCESS ∧
    (VulkanBackend.BeginFrame vkStateEx .ERROR_OUT_OF_DATE_KHR 0 true).2.2 =
      true :=
  (C3_beginFrame_error_contract vkStateEx .ERROR_OUT_OF_DATE_KHR 0
    true).2.1 (by decide) rfl

/-- Claim C7 counterexample: `HandleResize` produces identical results for
the argument pairs (1920, 1080) and (0, 0) on the same state, and leaves
the stored extent at (100, 100), so the new width and height are not
recorded anywhere in the backend state. -/
theorem C7_dimensions_not_recorded :
    VulkanBackend.HandleResize vkStateEx 1920 1080 =
      VulkanBackend.HandleResize vkStateEx 0 0 ∧
    (VulkanBackend.HandleResize vkStateEx 1920 1080).1.swapchainExtent =
      (100, 100) :=
  ⟨rfl, rfl⟩

/-- Claim C7 (amended): `HandleResize` sets the pending-resize flag and
returns SUCCESS, without storing the given dimensions (its result does not
depend on them) and without touching the swapchain or any other field. -/
theorem C7_amended_handleResize (s : VulkanState) (w h w' h' : Nat) :
    (VulkanBackend.HandleResize s w h).1 =
      { s with framebufferResized := true } ∧
    (VulkanBackend.HandleResize s w h).2 = .SUCCESS ∧
    VulkanBackend.HandleResize s w h = VulkanBackend.HandleResize s w' h' ∧
    (VulkanBackend.HandleResize s w h).1.swapchainExtent =
      s.swapchainExtent ∧
    (VulkanBackend.HandleResize s w h).1.swapchain = s.swapchain :=
  ⟨rfl, rfl, rfl, rfl, rfl⟩

/-- Claim C10: when the backend's BeginFrame fails, the render callback,
EndFrame and Present are all skipped; when EndFrame fails, Present is
skipped; in every case `Render` leaves the frontend state unchanged and
returns normally, so a failed frame never terminates the main loop. -/
theorem C10_render_skips_on_failure (fs : FrontendState) (hrc : Bool)
    (br er pr : BackendResult) :
    (GraphicsFrontend.Render fs true hrc br er pr).1 = fs ∧
    (GraphicsFrontend.Render fs false hrc br er pr).1 = fs ∧
    (br ≠ .SUCCESS →
      (GraphicsFrontend.Render fs true hrc br er pr).2 =
        [RenderCall.beginFrame]) ∧
    (br = .SUCCESS → er ≠ .SUCCESS →
      RenderCall.present ∉ (GraphicsFrontend.Render fs true hrc br er pr).2 ∧
      RenderCall.endFrame ∈
        (GraphicsFrontend.Render fs true hrc br er pr).2) := by
  by_cases hbr : br = BackendResult.SUCCESS <;>
    by_cases her : er = BackendResult.SUCCESS <;> cases hrc <;>
    simp [GraphicsFrontend.Render, hbr, her]

/-- Claim C10 witness: on the concrete frontend state, a failed BeginFrame
makes the render step perform only the BeginFrame call. -/
theorem C10_render_skips_on_failure_witness :
    (GraphicsFrontend.Render feStateEx true true .UNKNOWN_ERROR .SUCCESS
      .SUCCESS).2 = [RenderCall.beginFrame] :=
  (C10_render_skips_on_failure feStateEx true .UNKNOWN_ERROR .SUCCESS
    .SUCCESS).2.2.1 (by decide)
